import Mathlib

/-!
Shallow embedding of the `my-iced-editor` application core (src/main.rs):
the `Editor` application state, its `Message` reducer `Editor.update`, the
startup constructor `Editor.new`, and the asynchronous persistence helpers
`load_file` and `save_file`.  External effects (filesystem reads/writes and
the file-chooser dialog) are passed in as explicit parameters; the commands
returned by the reducer are reified as the inductive `Command`.
-/

namespace MyIcedEditor

/-- Filesystem paths, abstracted as strings (model of `std::path::PathBuf`). -/
abbrev Path := String

/-- Coarse platform-independent I/O error classification
(model of `std::io::ErrorKind`). -/
inductive IOKind
  | notFound
  | permissionDenied
  | invalidData
  | otherKind
deriving Repr, DecidableEq

/-- The error type of src/main.rs: `enum Error { DialogClosed, IOFailed(ErrorKind) }`. -/
inductive Error
  | DialogClosed
  | IOFailed (kind : IOKind)
deriving Repr, DecidableEq

/-- Modelled from the spec: the `EditAction` variant set of the external
`iced::widget::text_editor::Action` type — insert character, insert newline,
delete backward, delete forward, and single-caret cursor movement
(up/down/left/right/word/line-start/line-end/document-start/document-end). -/
inductive Action
  | insertChar (c : Char)
  | insertNewline
  | deleteBackward
  | deleteForward
  | moveUp
  | moveDown
  | moveLeft
  | moveRight
  | moveWordLeft
  | moveWordRight
  | moveLineStart
  | moveLineEnd
  | moveDocStart
  | moveDocEnd
deriving Repr, DecidableEq

/-- Modelled from the spec: the action classification (`Action::is_edit` of the
external iced library): insertions and deletions are mutations, cursor
movements are pure navigation. -/
def Action.is_edit : Action → Bool
  | .insertChar _ => true
  | .insertNewline => true
  | .deleteBackward => true
  | .deleteForward => true
  | _ => false

/-- Modelled from the spec: the text buffer of the external
`iced::widget::text_editor::Content` — an ordered sequence of text lines
(always at least one line) together with a zero-based cursor position. -/
structure Content where
  lines : List String
  cursorLine : Nat
  cursorCol : Nat
deriving Repr, DecidableEq

/-- Modelled from the spec: a fresh empty buffer (`Content::new`) — one empty line. -/
def Content.new : Content := ⟨[""], 0, 0⟩

/-- Modelled from the spec: `Content::with_text` — split the text into
newline-delimited lines, cursor at the document start. -/
def Content.with_text (s : String) : Content := ⟨s.splitOn "\n", 0, 0⟩

/-- Modelled from the spec: `Content::text` — the full buffer rendered as
newline-joined lines. -/
def Content.text (c : Content) : String := String.intercalate "\n" c.lines

/-- The line the cursor is on (empty if out of range). -/
def Content.curLine (c : Content) : String := c.lines.getD c.cursorLine ""

/-- Length of line `i` of the buffer. -/
def Content.lineLen (c : Content) (i : Nat) : Nat := (c.lines.getD i "").length

/-- Index of the last line of the buffer. -/
def Content.lastLine (c : Content) : Nat := c.lines.length - 1

/-- Target column of a word-left jump inside one line: skip spaces, then a word. -/
def wordLeftPos (s : String) (col : Nat) : Nat :=
  (((s.toList.take col).reverse.dropWhile (· = ' ')).dropWhile (· ≠ ' ')).length

/-- Target column of a word-right jump inside one line: skip spaces, then a word. -/
def wordRightPos (s : String) (col : Nat) : Nat :=
  s.length - (((s.toList.drop col).dropWhile (· = ' ')).dropWhile (· ≠ ' ')).length

/-- Modelled from the spec: `Content::perform` — apply one edit action to the
buffer.  Mutations edit at the cursor and move it to the edit boundary;
navigation recomputes the cursor with line-length-aware clamping (down from
the last line is a no-op, left at column 0 wraps to the end of the previous
line, right past end-of-line wraps to the start of the next line). -/
def Content.perform (c : Content) (a : Action) : Content :=
  let l := c.curLine
  match a with
  | .insertChar ch =>
      ⟨c.lines.set c.cursorLine ((l.take c.cursorCol).push ch ++ l.drop c.cursorCol),
        c.cursorLine, c.cursorCol + 1⟩
  | .insertNewline =>
      ⟨c.lines.take c.cursorLine ++ [l.take c.cursorCol, l.drop c.cursorCol]
          ++ c.lines.drop (c.cursorLine + 1),
        c.cursorLine + 1, 0⟩
  | .deleteBackward =>
      if 0 < c.cursorCol then
        ⟨c.lines.set c.cursorLine (l.take (c.cursorCol - 1) ++ l.drop c.cursorCol),
          c.cursorLine, c.cursorCol - 1⟩
      else if 0 < c.cursorLine then
        let prev := c.lines.getD (c.cursorLine - 1) ""
        ⟨c.lines.take (c.cursorLine - 1) ++ [prev ++ l] ++ c.lines.drop (c.cursorLine + 1),
          c.cursorLine - 1, prev.length⟩
      else c
  | .deleteForward =>
      if c.cursorCol < l.length then
        ⟨c.lines.set c.cursorLine (l.take c.cursorCol ++ l.drop (c.cursorCol + 1)),
          c.cursorLine, c.cursorCol⟩
      else if c.cursorLine < c.lastLine then
        let next := c.lines.getD (c.cursorLine + 1) ""
        ⟨c.lines.take c.cursorLine ++ [l ++ next] ++ c.lines.drop (c.cursorLine + 2),
          c.cursorLine, c.cursorCol⟩
      else c
  | .moveUp =>
      if 0 < c.cursorLine then
        ⟨c.lines, c.cursorLine - 1, min c.cursorCol (c.lineLen (c.cursorLine - 1))⟩
      else c
  | .moveDown =>
      if c.cursorLine < c.lastLine then
        ⟨c.lines, c.cursorLine + 1, min c.cursorCol (c.lineLen (c.cursorLine + 1))⟩
      else c
  | .moveLeft =>
      if 0 < c.cursorCol then ⟨c.lines, c.cursorLine, c.cursorCol - 1⟩
      else if 0 < c.cursorLine then
        ⟨c.lines, c.cursorLine - 1, c.lineLen (c.cursorLine - 1)⟩
      else c
  | .moveRight =>
      if c.cursorCol < l.length then ⟨c.lines, c.cursorLine, c.cursorCol + 1⟩
      else if c.cursorLine < c.lastLine then ⟨c.lines, c.cursorLine + 1, 0⟩
      else c
  | .moveWordLeft =>
      if 0 < c.cursorCol then ⟨c.lines, c.cursorLine, wordLeftPos l c.cursorCol⟩
      else if 0 < c.cursorLine then
        ⟨c.lines, c.cursorLine - 1, c.lineLen (c.cursorLine - 1)⟩
      else c
  | .moveWordRight =>
      if c.cursorCol < l.length then ⟨c.lines, c.cursorLine, wordRightPos l c.cursorCol⟩
      else if c.cursorLine < c.lastLine then ⟨c.lines, c.cursorLine + 1, 0⟩
      else c
  | .moveLineStart => ⟨c.lines, c.cursorLine, 0⟩
  | .moveLineEnd => ⟨c.lines, c.cursorLine, l.length⟩
  | .moveDocStart => ⟨c.lines, 0, 0⟩
  | .moveDocEnd => ⟨c.lines, c.lastLine, c.lineLen c.lastLine⟩

/-- The highlighter theme enumeration used by the editor
(`iced::highlighter::Theme`, restricted to the two values the app toggles
between). -/
inductive HighlighterTheme
  | SolarizedDark
  | InspiredGitHub
deriving Repr, DecidableEq

/-- `Theme::is_dark` for the two themes the app uses. -/
def HighlighterTheme.is_dark : HighlighterTheme → Bool
  | .SolarizedDark => true
  | .InspiredGitHub => false

/-- The application state: `struct Editor` of src/main.rs. -/
structure Editor where
  path : Option Path
  content : Content
  error : Option Error
  theme : HighlighterTheme
  is_dirty : Bool
deriving Repr, DecidableEq

deriving instance DecidableEq for Except

/-- The message type: `enum Message` of src/main.rs. -/
inductive Message
  | EditorStateChanged (a : Action)
  | New
  | Open
  | FileOpened (r : Except Error (Path × String))
  | Save
  | FileSaved (r : Except Error Path)
  | SwitchTheme
deriving Repr, DecidableEq

/-- The asynchronous tasks the reducer can issue, reified
(`iced::Command` values produced by `Editor::update` / `Editor::new`). -/
inductive Command
  | none
  | performLoad (path : Path)
  | performPickFile
  | performSave (path : Option Path) (text : String)
deriving Repr, DecidableEq

/-- `default_file()`: the fixed default path auto-loaded at startup
(`CARGO_MANIFEST_DIR` is a compile-time constant). -/
def default_file : Path := "CARGO_MANIFEST_DIR/src/main.rs"

/-- `Editor::new`: initial state (no path, empty buffer, no error,
SolarizedDark theme, dirty) together with the startup command that
auto-loads the default file. -/
def Editor.new : Editor × Command :=
  ({ path := Option.none, content := Content.new, error := Option.none,
     theme := HighlighterTheme.SolarizedDark, is_dirty := true },
   Command.performLoad default_file)

/-- `Editor::update`: the reducer of src/main.rs, returning the new state and
the (zero-or-one) command issued. -/
def Editor.update (e : Editor) : Message → Editor × Command
  | .EditorStateChanged a =>
      ({ e with is_dirty := e.is_dirty || a.is_edit,
                error := Option.none,
                content := e.content.perform a }, .none)
  | .New =>
      ({ e with path := Option.none, content := Content.new, is_dirty := true }, .none)
  | .Open => (e, .performPickFile)
  | .FileOpened (.ok (p, s)) =>
      ({ e with path := some p, content := Content.with_text s, is_dirty := false }, .none)
  | .FileOpened (.error err) => ({ e with error := some err }, .none)
  | .Save => (e, .performSave e.path e.content.text)
  | .FileSaved (.ok p) => ({ e with path := some p, is_dirty := false }, .none)
  | .FileSaved (.error err) => ({ e with error := some err }, .none)
  | .SwitchTheme =>
      ({ e with theme := if e.theme.is_dark then HighlighterTheme.InspiredGitHub
                          else HighlighterTheme.SolarizedDark }, .none)

/-- `load_file(path)`: read the file fully; on success return the same path
paired with its text, on failure wrap the I/O error kind in `Error::IOFailed`.
The filesystem read (`tokio::fs::read_to_string`, with UTF-8 decoding
failures already classified as an I/O error kind) is the parameter `read`. -/
def load_file (read : Path → Except IOKind String) (path : Path) :
    Except Error (Path × String) :=
  match read path with
  | .ok s => .ok (path, s)
  | .error k => .error (Error.IOFailed k)

/-- The observable outcome of one `save_file` call: its result, whether the
"save as" dialog was opened, and the filesystem writes it attempted. -/
structure SaveOutcome where
  result : Except Error Path
  dialogOpened : Bool
  writes : List (Path × String)
deriving Repr, DecidableEq

/-- `save_file(path, text)`: if `path` is `None`, ask the "save as" dialog for
one (the dialog result is the parameter `dialog`; `Option.none` means the user
canceled, which fails with `Error::DialogClosed` before any write); then write
`text` to the resolved path (`tokio::fs::write` is the parameter `write`),
returning that path on success and `Error::IOFailed` on a write error. -/
def save_file (dialog : Option Path) (write : Path → String → Except IOKind Unit)
    (path : Option Path) (text : String) : SaveOutcome :=
  match path with
  | some p =>
      match write p text with
      | .ok _ => ⟨.ok p, false, [(p, text)]⟩
      | .error k => ⟨.error (Error.IOFailed k), false, [(p, text)]⟩
  | none =>
      match dialog with
      | none => ⟨.error Error.DialogClosed, true, []⟩
      | some p =>
          match write p text with
          | .ok _ => ⟨.ok p, true, [(p, text)]⟩
          | .error k => ⟨.error (Error.IOFailed k), true, [(p, text)]⟩

/-- Split a character list at every occurrence of `sep`
(model of the separator structure `PathBuf` methods rely on). -/
def splitOnChar (sep : Char) : List Char → List (List Char)
  | [] => [[]]
  | c :: rest =>
      let r := splitOnChar sep rest
      if c = sep then [] :: r
      else
        match r with
        | [] => [[c]]
        | g :: gs => (c :: g) :: gs

/-- `Path::extension` of the Rust standard library, on our string paths:
the part of the file name after its final dot, `none` when the file name has
no dot or is a dot-file with no further dot. -/
def pathExtension (p : Path) : Option String :=
  let f := (splitOnChar '/' p.toList).getLastD []
  match splitOnChar '.' f with
  | [] => none
  | [_] => none
  | [[], _] => none
  | parts => some (parts.getLastD []).asString

/-- The language hint `Editor::view` hands to the highlighter:
`self.path.as_ref().and_then(|path| path.extension()?.to_str()).unwrap_or("js")`. -/
def highlightExtension (e : Editor) : String :=
  (e.path.bind pathExtension).getD "js"

/-- The save control of `Editor::view`: its press message is
`self.is_dirty.then_some(Message::Save)`. -/
def saveControl (e : Editor) : Option Message :=
  if e.is_dirty then some Message.Save else none

/-- Fold a list of editor actions through the reducer, one
`EditorStateChanged` message per action. -/
def runActions (e : Editor) (as : List Action) : Editor :=
  as.foldl (fun s a => (s.update (Message.EditorStateChanged a)).1) e

/-- Fold a list of messages through the reducer. -/
def runMessages (e : Editor) (ms : List Message) : Editor :=
  ms.foldl (fun s m => (s.update m).1) e

/-- A state showing a pending error, used as a concrete input below. -/
def errEditor : Editor :=
  { path := Option.none, content := Content.new, error := some Error.DialogClosed,
    theme := HighlighterTheme.SolarizedDark, is_dirty := true }

/-- A concrete filesystem read that always succeeds with the text "hello". -/
def okReader : Path → Except IOKind String := fun _ => Except.ok "hello"

/-- A concrete filesystem write that always succeeds. -/
def okWriter : Path → String → Except IOKind Unit := fun _ _ => Except.ok ()

/-- C1: processing `EditorStateChanged(a)` sets the dirty flag to
(old dirty OR `is_edit(a)`), and consequently every sequence of
navigation-only (non-edit) actions leaves the dirty flag at its prior value. -/
theorem C1_dirty_is_or_of_is_edit :
    (∀ (e : Editor) (a : Action),
      ((e.update (Message.EditorStateChanged a)).1).is_dirty = (e.is_dirty || a.is_edit)) ∧
    (∀ (e : Editor) (as : List Action), (∀ a ∈ as, a.is_edit = false) →
      (runActions e as).is_dirty = e.is_dirty) := by
  refine ⟨fun e a => rfl, fun e as h => ?_⟩
  induction as generalizing e with
  | nil => rfl
  | cons a rest ih =>
      have ha : a.is_edit = false := h a (List.mem_cons_self a rest)
      have hrest : ∀ b ∈ rest, b.is_edit = false := fun b hb => h b (List.mem_cons_of_mem a hb)
      show (runActions ((e.update (Message.EditorStateChanged a)).1) rest).is_dirty = e.is_dirty
      rw [ih _ hrest]
      show (e.is_dirty || a.is_edit) = e.is_dirty
      rw [ha, Bool.or_false]

/-- Witness for C1 at a concrete navigation-only sequence. -/
theorem C1_dirty_is_or_of_is_edit_witness :
    (∀ a ∈ [Action.moveLeft, Action.moveDown, Action.moveDocEnd], a.is_edit = false) ∧
    (runActions errEditor [Action.moveLeft, Action.moveDown, Action.moveDocEnd]).is_dirty
      = errEditor.is_dirty :=
  ⟨by decide,
   C1_dirty_is_or_of_is_edit.2 errEditor [Action.moveLeft, Action.moveDown, Action.moveDocEnd]
     (by decide)⟩

/-- C2 counterexample: the claim says the error slot is `None` after processing
`New`, but from a state whose error slot holds `DialogClosed`, processing
`New` leaves the error slot set. -/
theorem C2_error_cleared_cex :
    ((errEditor.update Message.New).1).error ≠ Option.none := by decide

/-- C2 (amended): every `EditorStateChanged` clears the error slot, while
`New`, `FileOpened(Ok)` and `FileSaved(Ok)` leave the error slot unchanged. -/
theorem C2_error_clearing_amended :
    (∀ (e : Editor) (a : Action),
      ((e.update (Message.EditorStateChanged a)).1).error = Option.none) ∧
    (∀ e : Editor, ((e.update Message.New).1).error = e.error) ∧
    (∀ (e : Editor) (p : Path) (s : String),
      ((e.update (Message.FileOpened (Except.ok (p, s)))).1).error = e.error) ∧
    (∀ (e : Editor) (p : Path),
      ((e.update (Message.FileSaved (Except.ok p))).1).error = e.error) :=
  ⟨fun _ _ => rfl, fun _ => rfl, fun _ _ _ => rfl, fun _ _ => rfl⟩

/-- C3: a failed open is atomic — processing `FileOpened(Err e)` sets the
error slot to `e` and leaves the path, the document content, the dirty flag
and the theme unchanged (and issues no command). -/
theorem C3_failed_open_atomic (e : Editor) (err : Error) :
    ((e.update (Message.FileOpened (Except.error err))).1).error = some err ∧
    ((e.update (Message.FileOpened (Except.error err))).1).path = e.path ∧
    ((e.update (Message.FileOpened (Except.error err))).1).content = e.content ∧
    ((e.update (Message.FileOpened (Except.error err))).1).is_dirty = e.is_dirty ∧
    ((e.update (Message.FileOpened (Except.error err))).1).theme = e.theme ∧
    (e.update (Message.FileOpened (Except.error err))).2 = Command.none :=
  ⟨rfl, rfl, rfl, rfl, rfl, rfl⟩

/-- C4: with no current path and a canceled dialog, `save_file` fails with
`DialogClosed` and attempts no filesystem write; and on a state with
path `None` and dirty `true`, processing the resulting
`FileSaved(Err DialogClosed)` leaves path `None` and dirty `true`,
setting only the error slot. -/
theorem C4_canceled_save (write : Path → String → Except IOKind Unit) (text : String)
    (e : Editor) (hp : e.path = Option.none) (hd : e.is_dirty = true) :
    save_file Option.none write Option.none text
        = ⟨Except.error Error.DialogClosed, true, []⟩ ∧
    ((e.update (Message.FileSaved (Except.error Error.DialogClosed))).1).path
        = Option.none ∧
    ((e.update (Message.FileSaved (Except.error Error.DialogClosed))).1).is_dirty = true ∧
    ((e.update (Message.FileSaved (Except.error Error.DialogClosed))).1).error
        = some Error.DialogClosed ∧
    ((e.update (Message.FileSaved (Except.error Error.DialogClosed))).1).content
        = e.content ∧
    ((e.update (Message.FileSaved (Except.error Error.DialogClosed))).1).theme = e.theme := by
  refine ⟨rfl, ?_, ?_, rfl, rfl, rfl⟩
  · show e.path = Option.none
    exact hp
  · show e.is_dirty = true
    exact hd

/-- Witness for C4 at the initial state (path `None`, dirty `true`) and the
content "hi". -/
theorem C4_canceled_save_witness :
    Editor.new.1.path = Option.none ∧ Editor.new.1.is_dirty = true ∧
    (save_file Option.none okWriter Option.none "hi"
        = ⟨Except.error Error.DialogClosed, true, []⟩ ∧
     ((Editor.new.1.update (Message.FileSaved (Except.error Error.DialogClosed))).1).path
        = Option.none ∧
     ((Editor.new.1.update (Message.FileSaved (Except.error Error.DialogClosed))).1).is_dirty
        = true ∧
     ((Editor.new.1.update (Message.FileSaved (Except.error Error.DialogClosed))).1).error
        = some Error.DialogClosed ∧
     ((Editor.new.1.update (Message.FileSaved (Except.error Error.DialogClosed))).1).content
        = Editor.new.1.content ∧
     ((Editor.new.1.update (Message.FileSaved (Except.error Error.DialogClosed))).1).theme
        = Editor.new.1.theme) :=
  ⟨rfl, rfl, C4_canceled_save okWriter "hi" Editor.new.1 rfl rfl⟩

/-- C5: saving with a known path never opens the dialog and, when the write
succeeds, returns exactly the path that was passed in; and processing
`FileSaved(Ok p)` unconditionally sets path to `Some p` and dirty to `false`
on every state. -/
theorem C5_save_known_path (dialog : Option Path)
    (write : Path → String → Except IOKind Unit) (p : Path) (text : String)
    (hw : write p text = Except.ok ()) :
    (save_file dialog write (some p) text).dialogOpened = false ∧
    (save_file dialog write (some p) text).result = Except.ok p ∧
    (∀ (e : Editor) (q : Path),
      ((e.update (Message.FileSaved (Except.ok q))).1).path = some q ∧
      ((e.update (Message.FileSaved (Except.ok q))).1).is_dirty = false) := by
  refine ⟨?_, ?_, fun e q => ⟨rfl, rfl⟩⟩
  · show (match write p text with
      | .ok _ => (⟨.ok p, false, [(p, text)]⟩ : SaveOutcome)
      | .error k => ⟨.error (Error.IOFailed k), false, [(p, text)]⟩).dialogOpened = false
    cases write p text <;> rfl
  · rw [show save_file dialog write (some p) text
        = match write p text with
          | .ok _ => (⟨.ok p, false, [(p, text)]⟩ : SaveOutcome)
          | .error k => ⟨.error (Error.IOFailed k), false, [(p, text)]⟩ from rfl, hw]

/-- Witness for C5 at a concrete path, text and always-succeeding write. -/
theorem C5_save_known_path_witness :
    okWriter "a/b.txt" "text" = Except.ok () ∧
    ((save_file Option.none okWriter (some "a/b.txt") "text").dialogOpened = false ∧
     (save_file Option.none okWriter (some "a/b.txt") "text").result = Except.ok "a/b.txt" ∧
     (∀ (e : Editor) (q : Path),
       ((e.update (Message.FileSaved (Except.ok q))).1).path = some q ∧
       ((e.update (Message.FileSaved (Except.ok q))).1).is_dirty = false)) :=
  ⟨rfl, C5_save_known_path Option.none okWriter "a/b.txt" "text" rfl⟩

/-- C6: `load_file p` returns `Ok (p, content)` with the very path it was
given and the file's full text when the read succeeds, returns
`Err (IOFailed kind)` when the read (or UTF-8 decoding, already classified as
an I/O error kind) fails, and never returns `DialogClosed`. -/
theorem C6_load_file_shape (read : Path → Except IOKind String) (p : Path) :
    (∀ s, read p = Except.ok s → load_file read p = Except.ok (p, s)) ∧
    (∀ k, read p = Except.error k →
      load_file read p = Except.error (Error.IOFailed k)) ∧
    load_file read p ≠ Except.error Error.DialogClosed := by
  refine ⟨fun s hs => ?_, fun k hk => ?_, ?_⟩
  · rw [load_file, hs]
  · rw [load_file, hk]
  · rw [load_file]
    cases read p <;> simp

/-- Witness for C6 at a concrete path and an always-succeeding read. -/
theorem C6_load_file_shape_witness :
    okReader "f.rs" = Except.ok "hello" ∧
    load_file okReader "f.rs" = Except.ok ("f.rs", "hello") :=
  ⟨rfl, (C6_load_file_shape okReader "f.rs").1 "hello" rfl⟩

/-- C7 counterexample: the claim says that after the startup auto-load fails
the state is clean (dirty flag `false`), but processing `FileOpened(Err _)` on
the initial state leaves the dirty flag `true`. -/
theorem C7_startup_clean_cex :
    ((Editor.new.1.update
        (Message.FileOpened (Except.error (Error.IOFailed IOKind.notFound)))).1).is_dirty
      ≠ false := by decide

/-- C7 (amended): at startup the application issues an auto-load of the fixed
default file, and if that load fails the resulting state is an empty document
with path `None` and the error recorded in the error slot — the dirty flag
keeps its initial value `true` (the state is dirty, not clean) and the
application does not crash (the transition is total). -/
theorem C7_startup_autoload_amended :
    Editor.new.2 = Command.performLoad default_file ∧
    Editor.new.1.path = Option.none ∧
    Editor.new.1.content = Content.new ∧
    Editor.new.1.error = Option.none ∧
    Editor.new.1.is_dirty = true ∧
    (∀ err : Error,
      (Editor.new.1.update (Message.FileOpened (Except.error err))).1
        = { Editor.new.1 with error := some err }) :=
  ⟨rfl, rfl, rfl, rfl, rfl, fun _ => rfl⟩

/-- The only messages whose handling assigns `false` to the dirty flag:
`FileOpened(Ok _)` and `FileSaved(Ok _)` (successful load and save). -/
def clears_dirty : Message → Bool
  | Message.FileOpened (Except.ok _) => true
  | Message.FileSaved (Except.ok _) => true
  | _ => false

/-- C8: the dirty flag is `true` at creation and after every `New`, and once
`true` it remains `true` under every message other than a successful load
(`FileOpened(Ok)`) or save (`FileSaved(Ok)`), both for a single message and
across any sequence of such messages — no other message ever sets it `false`. -/
theorem C8_dirty_until_successful_save_or_load :
    Editor.new.1.is_dirty = true ∧
    (∀ e : Editor, ((e.update Message.New).1).is_dirty = true) ∧
    (∀ (e : Editor) (m : Message), e.is_dirty = true → clears_dirty m = false →
      ((e.update m).1).is_dirty = true) ∧
    (∀ (e : Editor) (ms : List Message), e.is_dirty = true →
      (∀ m ∈ ms, clears_dirty m = false) →
      (runMessages e ms).is_dirty = true) := by
  have step : ∀ (e : Editor) (m : Message), e.is_dirty = true → clears_dirty m = false →
      ((e.update m).1).is_dirty = true := by
    intro e m hd hm
    cases m with
    | EditorStateChanged a =>
        show (e.is_dirty || a.is_edit) = true
        rw [hd, Bool.true_or]
    | New => rfl
    | Open => exact hd
    | FileOpened r =>
        cases r with
        | ok v => exact absurd hm (by simp [clears_dirty])
        | error err => exact hd
    | Save => exact hd
    | FileSaved r =>
        cases r with
        | ok p => exact absurd hm (by simp [clears_dirty])
        | error err => exact hd
    | SwitchTheme => exact hd
  refine ⟨rfl, fun e => rfl, step, fun e ms hd hms => ?_⟩
  induction ms generalizing e with
  | nil => exact hd
  | cons m rest ih =>
      have hm : clears_dirty m = false := hms m (List.mem_cons_self m rest)
      have hrest : ∀ n ∈ rest, clears_dirty n = false :=
        fun n hn => hms n (List.mem_cons_of_mem m hn)
      show (runMessages ((e.update m).1) rest).is_dirty = true
      exact ih _ (step e m hd hm) hrest

/-- Witness for C8 at the initial state and a concrete non-clearing message. -/
theorem C8_dirty_until_successful_save_or_load_witness :
    Editor.new.1.is_dirty = true ∧ clears_dirty Message.Open = false ∧
    ((Editor.new.1.update Message.Open).1).is_dirty = true :=
  ⟨rfl, rfl, C8_dirty_until_successful_save_or_load.2.2.1 Editor.new.1 Message.Open rfl rfl⟩

/-- C9: the language hint handed to the highlighter is a pure function of the
state's path; it equals the path's file extension when one can be extracted,
and equals the default hint "js" when there is no path or the path has no
extractable extension. -/
theorem C9_highlight_language_hint :
    (∀ e₁ e₂ : Editor, e₁.path = e₂.path → highlightExtension e₁ = highlightExtension e₂) ∧
    (∀ e : Editor, e.path = Option.none → highlightExtension e = "js") ∧
    (∀ (e : Editor) (p : Path), e.path = some p → pathExtension p = Option.none →
      highlightExtension e = "js") ∧
    (∀ (e : Editor) (p : Path) (ext : String), e.path = some p → pathExtension p = some ext →
      highlightExtension e = ext) := by
  refine ⟨fun e₁ e₂ h => ?_, fun e h => ?_, fun e p hp hx => ?_, fun e p ext hp hx => ?_⟩
  · rw [highlightExtension, highlightExtension, h]
  · rw [highlightExtension, h]
    rfl
  · rw [highlightExtension, hp]
    show (pathExtension p).getD "js" = "js"
    rw [hx]
    rfl
  · rw [highlightExtension, hp]
    show (pathExtension p).getD "js" = ext
    rw [hx]
    rfl

/-- Witness for C9 at a concrete path with extension "rs". -/
theorem C9_highlight_language_hint_witness :
    ({ errEditor with path := some "dir/main.rs" } : Editor).path = some "dir/main.rs" ∧
    pathExtension "dir/main.rs" = some "rs" ∧
    highlightExtension { errEditor with path := some "dir/main.rs" } = "rs" :=
  ⟨rfl, by decide,
   C9_highlight_language_hint.2.2.2 { errEditor with path := some "dir/main.rs" }
     "dir/main.rs" "rs" rfl (by decide)⟩

/-- C10: processing `Save` issues exactly one save command carrying the
state's current path and the snapshot of the document text taken at dispatch
time, for every state regardless of the dirty flag, and leaves the state
itself unchanged; only the view's save control is gated on the dirty flag. -/
theorem C10_save_dispatch :
    (∀ e : Editor, e.update Message.Save = (e, Command.performSave e.path e.content.text)) ∧
    (∀ e : Editor, (saveControl e).isSome = e.is_dirty) := by
  refine ⟨fun e => rfl, fun e => ?_⟩
  rw [saveControl]
  cases hb : e.is_dirty <;> simp [hb]

end MyIcedEditor
